import Mathlib

/-!
Shallow embedding of `src/load_dynamodb_lms.py` (ingestion pipeline for the
LMS DynamoDB loader): the row transformer `build_item` with its helper
conversions, the error-classification table `ERROR_HELP_STRINGS` with
`log_boto_client_error`, and the orchestration loop `load_from_csv`.
The external collaborators (csv reader, DynamoDB batch writer) are modelled
as a list of rows and an oracle assigning an outcome to each dispatched
write; Python exceptions become an `Except PyErr` result.
-/

namespace LmsLoad

/-- Python exceptions that the embedded code can raise: `KeyError` from a
dict lookup, `ValueError` from `int(...)` or `datetime.strptime`, and
`UnboundLocalError` from reading a local variable before its first
assignment (the `except ValueError` handler of `load_from_csv` formats
the loop-local `item`, unbound until some row completes line 169). -/
inductive PyErr
  | keyError
  | valueError
  | unboundLocalError
deriving DecidableEq, Repr

/-- A csv row as `AsyncDictReader` yields it: an association list from
column name to raw string value. -/
abbrev Row := List (String × String)

/-- Python `given[k]` on a dict: the value, or a `KeyError`. -/
def keyLookup (given : Row) (k : String) : Except PyErr String :=
  match given.find? (fun p => p.1 == k) with
  | some p => .ok p.2
  | none => .error .keyError

/-- Model of `re.fullmatch(r'^\d+$', s)`: one or more decimal digits and
nothing else. -/
def pyFullmatchPosInt (s : String) : Bool :=
  !s.data.isEmpty && s.data.all Char.isDigit

/-- Value of a list of decimal digit characters, most significant first. -/
def digitsToNat (l : List Char) : Nat :=
  l.foldl (fun acc c => 10 * acc + (c.toNat - 48)) 0

/-- Model of Python `int(s)` for decimal strings: optional surrounding
whitespace, an optional sign, then one or more digits; otherwise a
`ValueError` (`none`). -/
def pyInt? (s : String) : Option Int :=
  let l := ((s.data.dropWhile Char.isWhitespace).reverse.dropWhile
    Char.isWhitespace).reverse
  match l with
  | '+' :: ds =>
    if !ds.isEmpty && ds.all Char.isDigit then some (digitsToNat ds) else none
  | '-' :: ds =>
    if !ds.isEmpty && ds.all Char.isDigit then some (-(digitsToNat ds : Int))
    else none
  | ds =>
    if !ds.isEmpty && ds.all Char.isDigit then some (digitsToNat ds) else none

/-- Python `int(s)` raising `ValueError` on failure. -/
def pyIntE (s : String) : Except PyErr Int :=
  match pyInt? s with
  | some n => .ok n
  | none => .error .valueError

/-! Model of `datetime.strptime(date, '%m/%d/%y')` followed by
`.isoformat()`, after CPython's `_strptime`: the format compiles to the
regex `(1[0-2]|0[1-9]|[1-9])/(3[0-1]|[1-2]\d|0[1-9]|[1-9]| [1-9])/(\d\d)`
matched against the whole string, the two-digit year is mapped into
1969..2068, and the day is validated against the month's length. -/

/-- CPython century rule for `%y`: 00..68 are 2000..2068, 69..99 are
1969..1999. -/
def pyCentury (y : Nat) : Nat :=
  if y ≤ 68 then 2000 + y else 1900 + y

/-- Gregorian leap year, as `datetime` validates dates. -/
def isLeap (y : Nat) : Bool :=
  y % 4 == 0 && (y % 100 != 0 || y % 400 == 0)

/-- Days in a month of the proleptic Gregorian calendar. -/
def daysInMonth (y m : Nat) : Nat :=
  if m == 2 then (if isLeap y then 29 else 28)
  else if m == 4 || m == 6 || m == 9 || m == 11 then 30
  else 31

/-- Split a character list at every `'/'` (the format's literal
separators). -/
def splitSlash : List Char → List (List Char)
  | [] => [[]]
  | c :: rest =>
    if c = '/' then [] :: splitSlash rest
    else
      match splitSlash rest with
      | [] => [[c]]
      | g :: gs => (c :: g) :: gs

/-- Month field of the strptime regex: `1[0-2]|0[1-9]|[1-9]`, matched
against the whole field. -/
def monthField : List Char → Option Nat
  | [c] => if '1' ≤ c ∧ c ≤ '9' then some (c.toNat - 48) else none
  | [c1, c2] =>
    if c1 = '1' ∧ '0' ≤ c2 ∧ c2 ≤ '2' then some (10 + (c2.toNat - 48))
    else if c1 = '0' ∧ '1' ≤ c2 ∧ c2 ≤ '9' then some (c2.toNat - 48)
    else none
  | _ => none

/-- Day field of the strptime regex: `3[0-1]|[1-2]\d|0[1-9]|[1-9]| [1-9]`,
matched against the whole field. -/
def dayField : List Char → Option Nat
  | [c] => if '1' ≤ c ∧ c ≤ '9' then some (c.toNat - 48) else none
  | [c1, c2] =>
    if c1 = '3' ∧ ('0' ≤ c2 ∧ c2 ≤ '1') then some (30 + (c2.toNat - 48))
    else if ('1' ≤ c1 ∧ c1 ≤ '2') ∧ c2.isDigit then
      some (10 * (c1.toNat - 48) + (c2.toNat - 48))
    else if c1 = '0' ∧ '1' ≤ c2 ∧ c2 ≤ '9' then some (c2.toNat - 48)
    else if c1 = ' ' ∧ '1' ≤ c2 ∧ c2 ≤ '9' then some (c2.toNat - 48)
    else none
  | _ => none

/-- Year field of the strptime regex: exactly two digits, `\d\d`. -/
def yearField : List Char → Option Nat
  | [c1, c2] =>
    if c1.isDigit ∧ c2.isDigit then
      some (10 * (c1.toNat - 48) + (c2.toNat - 48))
    else none
  | _ => none

/-- Parse per `datetime.strptime(s, '%m/%d/%y')`: full-string regex match,
century mapping, calendar validation. Returns `(year, month, day)`. -/
def pyStrptimeDate (s : String) : Option (Nat × Nat × Nat) :=
  match splitSlash s.data with
  | [f1, f2, f3] =>
    match monthField f1, dayField f2, yearField f3 with
    | some m, some d, some y =>
      if d ≤ daysInMonth (pyCentury y) m then some (pyCentury y, m, d)
      else none
    | _, _, _ => none
  | _ => none

/-- Two-digit zero-padded decimal rendering, for values below 100. -/
def pad2 (n : Nat) : List Char :=
  [Nat.digitChar (n / 10 % 10), Nat.digitChar (n % 10)]

/-- Four-digit zero-padded decimal rendering, for values below 10000. -/
def pad4 (n : Nat) : List Char :=
  [Nat.digitChar (n / 1000 % 10), Nat.digitChar (n / 100 % 10),
   Nat.digitChar (n / 10 % 10), Nat.digitChar (n % 10)]

/-- Model of `datetime(y, m, d).isoformat()`: `YYYY-MM-DDT00:00:00`
(strptime with only date directives leaves the time at midnight). -/
def isoformatDate (y m d : Nat) : String :=
  ⟨pad4 y ++ '-' :: pad2 m ++ '-' :: pad2 d ++
    ['T', '0', '0', ':', '0', '0', ':', '0', '0']⟩

/-- Embedding of `convert_date` (src lines 98..102): empty input maps to
the empty string, otherwise strptime then isoformat, with a `ValueError`
on a non-conforming string. -/
def convert_date (date : String) : Except PyErr String :=
  if date = "" then .ok ""
  else
    match pyStrptimeDate date with
    | some (y, m, d) => .ok (isoformatDate y m d)
    | none => .error .valueError

/-- Embedding of `convert_nullable` (src lines 105..106): the value unless
it is empty, in which case the literal string "null". -/
def convert_nullable (value : String) : String :=
  if value ≠ "" then value else "null"

/-- Python `code.replace('01HD', '')` on the character list: every
non-overlapping occurrence of `01HD`, scanning left to right, is removed. -/
def stripAll01HD : List Char → List Char
  | '0' :: '1' :: 'H' :: 'D' :: rest => stripAll01HD rest
  | c :: rest => c :: stripAll01HD rest
  | [] => []

/-- Embedding of `convert_orgcode` (src lines 109..110):
`code.replace('01HD', '')`. -/
def convert_orgcode (code : String) : String :=
  ⟨stripAll01HD code.data⟩

/-- Whether a character list contains an occurrence of `01HD`. -/
def has01HD : List Char → Bool
  | '0' :: '1' :: 'H' :: 'D' :: _ => true
  | _ :: rest => has01HD rest
  | [] => false

/-- Embedding of `ERROR_HELP_STRINGS` (src lines 25..53): the fixed
taxonomy of DynamoDB error codes with their remediation strings, verbatim
(Python's adjacent string literals concatenated). -/
def ERROR_HELP_STRINGS : List (String × String) :=
  [("ConditionalCheckFailedException",
    "Condition check specified in the operation failed, review and update the condition check before retrying"),
   ("TransactionConflictException",
    "Operation was rejected because there is an ongoing transaction for the given, generally safe to retry with exponential back-off"),
   ("ItemCollectionSizeLimitExceededException",
    "A given collection is too large, you're using Local Secondary Index and exceeded size limit of items per partition key. Consider using Global Secondary Index instead"),
   ("AccessDeniedException",
    "Configure identity based access before retrying"),
   ("InternalServerError",
    "Internal Server Error, generally safe to retry with exponential back-off"),
   ("ProvisionedThroughputExceededException",
    "Request rate is too high. If you're using a custom retry strategy make sure to retry with exponential back-off. Otherwise consider reducing frequency of requests or increasing provisioned capacity for your table or secondary index"),
   ("ResourceNotFoundException",
    "One of the tables was not found, verify table exists before retrying"),
   ("ServiceUnavailable",
    "Had trouble reaching DynamoDB. generally safe to retry with exponential back-off"),
   ("ThrottlingException",
    "Request denied due to throttling, generally safe to retry with exponential back-off"),
   ("UnrecognizedClientException",
    "The request signature is incorrect most likely due to an invalid AWS access key ID or secret key, fix before retrying"),
   ("ValidationException",
    "The input fails to satisfy the constraints specified by DynamoDB, fix input before retrying"),
   ("RequestLimitExceeded",
    "Throughput exceeds the current throughput limit for your account, increase account level throughput before retrying")]

/-- Python dict lookup `ERROR_HELP_STRINGS[error_code]` as an option. -/
def errorHelp? (code : String) : Option String :=
  (ERROR_HELP_STRINGS.find? (fun p => p.1 == code)).map (fun p => p.2)

/-- Log lines the pipeline can emit, abstracted from the logger calls in
`load_from_csv`, `build_item` and `log_boto_client_error`. -/
inductive LogMsg
  | debugLoaded (count : Nat)
  | invalidValue
  | invalidParameter
  | clientHelp (code : String) (help : String) (msg : String)
  | unknownDuringLoad
deriving DecidableEq, Repr

/-- Whether a log line records a failure (the skip path and progress
logging do not). -/
def isFailureLog : LogMsg → Bool
  | .debugLoaded _ => false
  | _ => true

/-- Embedding of `log_boto_client_error` (src lines 113..116): look the
code up in `ERROR_HELP_STRINGS` — a `KeyError` for an unknown code — and
emit the `[code] help. Error message: msg` log line. -/
def log_boto_client_error (code msg : String) : Except PyErr LogMsg :=
  match errorHelp? code with
  | some help => .ok (.clientHelp code help msg)
  | none => .error .keyError

/-- The normalized assignment item `build_item` constructs (src lines
125..146), field for field. -/
structure Item where
  lms_user_id : Int
  activity_id : Int
  calnet_uid : String
  empl_id : String
  full_name : String
  given_name : String
  family_name : String
  empl_org_code : String
  manager_empl_id : String
  activity_code : String
  activity_name : String
  is_required : Bool
  assignment_status : String
  assigned_date : String
  due_date : String
  expiration_date : String
  last_attempt_date : String
  last_completion_date : String
  last_updated_datetime : String
  last_updated_event_id : Int
deriving DecidableEq, Repr

/-- The dict literal of `build_item` (src lines 125..146), evaluated in
source order once the skip check has passed; `now` is the value
`dt.datetime.now().isoformat(timespec='seconds')` would produce at the
call. Each lookup can raise `KeyError` and each conversion `ValueError`;
per the `except`/`raise` at lines 148..150 the exception propagates. -/
def buildItemInner (now : String) (given : Row) (username : String) :
    Except PyErr Item := do
  let lms_user_id ← pyIntE username
  let activityIdRaw ← keyLookup given "ActivityIDSource"
  let activity_id ← pyIntE activityIdRaw
  let calnet_uid ← keyLookup given "SourceIDEmpPk"
  let emplIdRaw ← keyLookup given "LocalEmployeeID"
  let full_name ← keyLookup given "EmpFullName1"
  let given_name ← keyLookup given "FirstName"
  let family_name ← keyLookup given "LastName"
  let orgCodeRaw ← keyLookup given "UserPrimaryOrganizationCode"
  let managerRaw ← keyLookup given "ManagerLocalEmployeeID"
  let activity_code ← keyLookup given "ActivityCode"
  let activity_name ← keyLookup given "ActivityName"
  let assignmentStatusRaw ← keyLookup given "AssignmentStatus"
  let assignment_status ← keyLookup given "UCRequirementStatus"
  let planRaw ← keyLookup given "PlanDate"
  let assigned_date ← convert_date planRaw
  let dueRaw ← keyLookup given "DueDate"
  let due_date ← convert_date dueRaw
  let expirationRaw ← keyLookup given "ExpirationDate"
  let expiration_date ← convert_date expirationRaw
  let attemptRaw ← keyLookup given "AttemptEndDate"
  let last_attempt_date ← convert_date attemptRaw
  let completionRaw ← keyLookup given "LastCompletionDateRealtime"
  let last_completion_date ← convert_date completionRaw
  pure { lms_user_id, activity_id, calnet_uid,
         empl_id := convert_nullable emplIdRaw,
         full_name, given_name, family_name,
         empl_org_code := convert_orgcode orgCodeRaw,
         manager_empl_id := convert_nullable managerRaw,
         activity_code, activity_name,
         is_required := assignmentStatusRaw == "Required",
         assignment_status, assigned_date, due_date, expiration_date,
         last_attempt_date, last_completion_date,
         last_updated_datetime := now,
         last_updated_event_id := 0 }

/-- Embedding of `build_item` (src lines 119..152): look up the identity
column (a missing key raises before anything else), skip the row when it
is not all digits, otherwise build the item. -/
def build_item (now : String) (given : Row) : Except PyErr (Option Item) :=
  match keyLookup given "Username" with
  | .error e => .error e
  | .ok username =>
    if pyFullmatchPosInt username then
      match buildItemInner now given username with
      | .ok item => .ok (some item)
      | .error e => .error e
    else .ok none

/-- An item with its ingestion timestamp blanked, to compare two builds of
the same row up to wall-clock time. -/
def stripTs (it : Item) : Item :=
  { it with last_updated_datetime := "" }

/-- A `build_item` result with the ingestion timestamp blanked. -/
def stripRes : Except PyErr (Option Item) → Except PyErr (Option Item)
  | .ok (some it) => .ok (some (stripTs it))
  | r => r

/-- Outcome the store reports for one dispatched `put_item` write. -/
inductive WriteOutcome
  | success
  | clientError (code : String) (msg : String)

/-- Model of `await asyncio.gather(*writes)` once `k` writes have been
dispatched: the first failing write's `ClientError`, if any (write `i`
counted from 1 has outcome `oracle i`). -/
def gatherFail (oracle : Nat → WriteOutcome) (k : Nat) :
    Option (String × String) :=
  (List.range k).findSome? (fun i =>
    match oracle (i + 1) with
    | .success => none
    | .clientError code msg => some (code, msg))

/-- What `load_from_csv` comes to: the returned `item_count`, whether the
run ended on an error handler's early `return` (aborted) rather than by
exhausting the stream or hitting the `item_count == 5000` break, and the
log lines emitted. -/
structure RunResult where
  item_count : Nat
  aborted : Bool
  logs : List LogMsg
deriving DecidableEq, Repr

/-- The `async for` loop of `load_from_csv` (src lines 167..195): per row,
build the item; if one was built, dispatch its write, bump the count and
await all dispatched writes; log progress every 100 items; break at 5000;
a `ClientError` is classified (`log_boto_client_error`, whose `KeyError`
on an unknown code propagates) and the count returned; any other exception
is logged by the catch-all handler and the count returned. The `bound`
flag tracks whether the loop-local `item` has been assigned: the
assignment at line 169 completes on every row whose build returns (item
or `None`) and on no row whose build raises. The `except ValueError`
handler at line 185 formats `item` into its log line, so while `item` is
unbound that handler itself raises `UnboundLocalError`, which no sibling
`except` clause catches — it escapes `load_from_csv` and aborts the run;
once `item` is bound the handler logs and the loop continues. (The
`except ParamValidationError` handler at line 187 shares the pattern but
can only fire for writer errors, after `item` is bound; the model's store
oracle raises only `ClientError`.) -/
def load_loop (oracle : Nat → WriteOutcome) (now : String) :
    List Row → Nat → Nat → Bool → List LogMsg → Except PyErr RunResult
  | [], count, _, _, logs => .ok ⟨count, false, logs⟩
  | given :: rest, count, disp, bound, logs =>
    match build_item now given with
    | .ok (some _) =>
      match gatherFail oracle (disp + 1) with
      | some (code, msg) =>
        match log_boto_client_error code msg with
        | .ok line => .ok ⟨count + 1, true, logs ++ [line]⟩
        | .error e => .error e
      | none =>
        let logs2 :=
          if (count + 1) % 100 = 0 then logs ++ [.debugLoaded (count + 1)]
          else logs
        if count + 1 = 5000 then .ok ⟨count + 1, false, logs2⟩
        else load_loop oracle now rest (count + 1) (disp + 1) true logs2
    | .ok none =>
      let logs2 :=
        if count % 100 = 0 then logs ++ [.debugLoaded count] else logs
      if count = 5000 then .ok ⟨count, false, logs2⟩
      else load_loop oracle now rest count disp true logs2
    | .error .valueError =>
      if bound then
        load_loop oracle now rest count disp bound (logs ++ [.invalidValue])
      else .error .unboundLocalError
    | .error _ => .ok ⟨count, true, logs ++ [.unknownDuringLoad]⟩

/-- Embedding of `load_from_csv` (src lines 155..195) over a row stream
and a write-outcome oracle, starting from zero items, no writes and the
loop-local `item` not yet assigned. -/
def load_from_csv (rows : List Row) (oracle : Nat → WriteOutcome)
    (now : String) : Except PyErr RunResult :=
  load_loop oracle now rows 0 0 false []

/-- A store in which every write succeeds. -/
def allOk : Nat → WriteOutcome := fun _ => .success

/-- A store in which exactly the `k`-th dispatched write fails with the
given `ClientError` and every other write succeeds. -/
def oracleFailAt (k : Nat) (code msg : String) : Nat → WriteOutcome :=
  fun n => if n = k then .clientError code msg else .success

/-- The strings that strictly match the spec's `MM/DD/YY` pattern are
exactly the `strictRender m d y` for `1 ≤ m ≤ 12`, `y ≤ 99` and `d` a
valid day of that month: two-digit zero-padded month, day and year joined
by slashes. -/
def strictRender (m d y : Nat) : String :=
  ⟨pad2 m ++ '/' :: pad2 d ++ '/' :: pad2 y⟩

/-- Read a `YYYY-MM-DDTHH:MM:SS` ISO-8601 timestamp back: the calendar
date `(year, month, day)` it denotes, or `none` when the string is not of
that well-formed shape. -/
def parseIso (s : String) : Option (Nat × Nat × Nat) :=
  match s.data with
  | [y1, y2, y3, y4, '-', m1, m2, '-', d1, d2, 'T',
     h1, h2, ':', n1, n2, ':', s1, s2] =>
    if y1.isDigit ∧ y2.isDigit ∧ y3.isDigit ∧ y4.isDigit ∧ m1.isDigit ∧
        m2.isDigit ∧ d1.isDigit ∧ d2.isDigit ∧ h1.isDigit ∧ h2.isDigit ∧
        n1.isDigit ∧ n2.isDigit ∧ s1.isDigit ∧ s2.isDigit then
      some ((y1.toNat - 48) * 1000 + (y2.toNat - 48) * 100 +
              (y3.toNat - 48) * 10 + (y4.toNat - 48),
            (m1.toNat - 48) * 10 + (m2.toNat - 48),
            (d1.toNat - 48) * 10 + (d2.toNat - 48))
    else none
  | _ => none

/-- Whether `build_item` neither skips nor fails on the row: the row
contributes an item to the run. -/
def isItemRow (now : String) (given : Row) : Bool :=
  match build_item now given with
  | .ok (some _) => true
  | _ => false

/-- Whether a row stream stays inside the loop's per-row containment all
the way down, given whether the loop-local `item` is already assigned:
every row builds an item or skips (binding `item`), or raises a
`ValueError` at a point where `item` is already bound (so the handler at
src line 185 can log it and continue); a `ValueError` before any binding
(the handler's `UnboundLocalError`) and any other exception (the
catch-all abort) disqualify the stream. -/
def noUnboundFailure (now : String) : Bool → List Row → Bool
  | _, [] => true
  | bound, given :: rest =>
    match build_item now given with
    | .ok _ => noUnboundFailure now true rest
    | .error .valueError => bound && noUnboundFailure now bound rest
    | .error _ => false

/-- Number of rows of the stream that build an item. -/
def validCount (now : String) (rows : List Row) : Nat :=
  rows.countP (isItemRow now)

/-- A fully valid source row: all-digit identity, parsable numeric
activity id, one parsable date and several empty nullable fields. -/
def validRow1 : Row :=
  [("Username", "123"), ("ActivityIDSource", "77"),
   ("SourceIDEmpPk", "u-1"), ("LocalEmployeeID", ""),
   ("EmpFullName1", "Ada Lovelace"), ("FirstName", "Ada"),
   ("LastName", "Lovelace"), ("UserPrimaryOrganizationCode", "01HDABCD"),
   ("ManagerLocalEmployeeID", "M9"), ("ActivityCode", "AC1"),
   ("ActivityName", "Safety"), ("AssignmentStatus", "Required"),
   ("UCRequirementStatus", "Assigned"), ("PlanDate", "01/02/21"),
   ("DueDate", ""), ("ExpirationDate", ""), ("AttemptEndDate", ""),
   ("LastCompletionDateRealtime", "")]

/-- A second fully valid source row. -/
def validRow2 : Row :=
  [("Username", "456"), ("ActivityIDSource", "78"),
   ("SourceIDEmpPk", "u-2"), ("LocalEmployeeID", "E2"),
   ("EmpFullName1", "Grace Hopper"), ("FirstName", "Grace"),
   ("LastName", "Hopper"), ("UserPrimaryOrganizationCode", "QRST"),
   ("ManagerLocalEmployeeID", ""), ("ActivityCode", "AC2"),
   ("ActivityName", "Ethics"), ("AssignmentStatus", "Optional"),
   ("UCRequirementStatus", "Completed"), ("PlanDate", "12/31/99"),
   ("DueDate", "02/29/24"), ("ExpirationDate", ""),
   ("AttemptEndDate", ""), ("LastCompletionDateRealtime", "")]

/-- A row whose identity column is not all digits: a non-person entity,
skipped before any other column is read. -/
def skipRow : Row :=
  [("Username", "E-100")]

/-- A row passing the skip check whose `PlanDate` does not parse as
`MM/DD/YY`: a contained per-row build failure (`ValueError`). -/
def badDateRow : Row :=
  [("Username", "789"), ("ActivityIDSource", "79"),
   ("SourceIDEmpPk", "u-3"), ("LocalEmployeeID", "E3"),
   ("EmpFullName1", "Alan Turing"), ("FirstName", "Alan"),
   ("LastName", "Turing"), ("UserPrimaryOrganizationCode", "WXYZ"),
   ("ManagerLocalEmployeeID", "M1"), ("ActivityCode", "AC3"),
   ("ActivityName", "Logic"), ("AssignmentStatus", "Required"),
   ("UCRequirementStatus", "Assigned"), ("PlanDate", "2021-01-02"),
   ("DueDate", ""), ("ExpirationDate", ""), ("AttemptEndDate", ""),
   ("LastCompletionDateRealtime", "")]

/-- A row lacking the identity column `Username` entirely. -/
def noUserRow : Row :=
  [("ActivityIDSource", "1"), ("SourceIDEmpPk", "u-4")]

example : convert_orgcode "01HD1234" = "1234" := rfl
example : convert_orgcode "ABCD" = "ABCD" := rfl
example : convert_orgcode "XX01HDYY" = "XXYY" := rfl
example : convert_orgcode "01HD01HD1234" = "1234" := rfl
example : convert_date "01/02/21" = .ok "2021-01-02T00:00:00" := rfl
example : convert_date "1/2/21" = .ok "2021-01-02T00:00:00" := rfl
example : convert_date "02/31/21" = .error .valueError := rfl
example : convert_date "02/29/24" = .ok "2024-02-29T00:00:00" := rfl
example : convert_date "12/31/99" = .ok "1999-12-31T00:00:00" := rfl
example : convert_date "" = .ok "" := rfl
example : parseIso "2021-01-02T00:00:00" = some (2021, 1, 2) := by decide
example : isItemRow "T0" validRow1 = true := rfl
example : build_item "T0" skipRow = .ok none := rfl
example : build_item "T0" badDateRow = .error .valueError := rfl
example : build_item "T0" noUserRow = .error .keyError := rfl
example : load_from_csv [skipRow, validRow1, badDateRow] allOk "T0" =
    .ok ⟨1, false, [.debugLoaded 0, .invalidValue]⟩ := rfl
example : load_from_csv [validRow1, validRow2]
    (oracleFailAt 2 "ThrottlingException" "boom") "T0" =
    .ok ⟨2, true,
      [.clientHelp "ThrottlingException"
        "Request denied due to throttling, generally safe to retry with exponential back-off"
        "boom"]⟩ := rfl

/-! Helper lemmas about the string transforms. -/

lemma strip_of_no_occ : ∀ l, has01HD l = false → stripAll01HD l = l := by
  intro l h
  induction l using stripAll01HD.induct with
  | case1 rest ih => simp [has01HD] at h
  | case2 c rest hne ih =>
    rw [has01HD] at h
    · rw [stripAll01HD]
      · rw [ih h]
      · exact hne
    · exact hne
  | case3 => rfl

lemma strip_append_occ : ∀ a b : List Char, has01HD a = false →
    stripAll01HD (a ++ '0' :: '1' :: 'H' :: 'D' :: b) =
    a ++ stripAll01HD b := by
  intro a
  induction a with
  | nil => intro b h; rw [List.nil_append, stripAll01HD, List.nil_append]
  | cons c t ih =>
    intro b h
    have hne : ∀ rest1 : List Char, c = '0' →
        t = '1' :: 'H' :: 'D' :: rest1 → False := by
      intro r hc ht
      subst hc ht
      simp [has01HD] at h
    rw [has01HD] at h
    · have hne2 : ∀ rest1 : List Char, c = '0' →
          t ++ '0' :: '1' :: 'H' :: 'D' :: b =
          '1' :: 'H' :: 'D' :: rest1 → False := by
        intro r hc ht
        match t, ht with
        | [], ht => simp at ht
        | [x], ht => simp at ht
        | [x, y], ht => simp at ht
        | x :: y :: z :: t2, ht =>
          simp only [List.cons_append, List.cons.injEq] at ht
          obtain ⟨hx, hy, hz, -⟩ := ht
          exact hne t2 hc (by rw [hx, hy, hz])
      rw [List.cons_append, stripAll01HD]
      · rw [ih b h, List.cons_append]
      · exact hne2
    · exact hne

/-! Helper lemmas about the monadic structure of `buildItemInner`. -/

lemma bind_congr_strip {α : Type} (m : Except PyErr α)
    (f g : α → Except PyErr Item)
    (h : ∀ a, (f a).map stripTs = (g a).map stripTs) :
    (m >>= f).map stripTs = (m >>= g).map stripTs := by
  cases m with
  | error e => rfl
  | ok a => exact h a

lemma buildItemInner_det (n1 n2 : String) (given : Row) (u : String) :
    (buildItemInner n1 given u).map stripTs =
    (buildItemInner n2 given u).map stripTs := by
  unfold buildItemInner
  repeat refine bind_congr_strip _ _ _ fun a => ?_
  rfl

lemma bind_eq_ok {α β : Type} {m : Except PyErr α}
    {f : α → Except PyErr β} {b : β} :
    (m >>= f) = .ok b ↔ ∃ a, m = .ok a ∧ f a = .ok b := by
  cases m <;> simp [Bind.bind, Except.bind]

/-- Claim C2, as stated, is false: `convert_orgcode` is
`code.replace('01HD', '')`, which removes every occurrence, not only a
leading one — `"XX01HDYY"` (occurrence not leading) becomes `"XXYY"`, and
`"01HD01HD1234"` loses both copies, not exactly one. -/
theorem C2_orgcode_counterexample :
    convert_orgcode "XX01HDYY" = "XXYY" ∧ "XXYY" ≠ "XX01HDYY" ∧
    convert_orgcode "01HD01HD1234" = "1234" ∧ "1234" ≠ "01HD1234" :=
  ⟨rfl, by decide, rfl, by decide⟩

/-- Claim C2 amended: `convert_orgcode` removes every non-overlapping
occurrence of the 4-character prefix string "01HD", scanning left to
right, wherever it occurs (not only a leading one); on a string without
an occurrence it is the identity, and the spec's two cited examples hold:
`convert_orgcode "01HD1234" = "1234"` and
`convert_orgcode "ABCD" = "ABCD"`. -/
theorem C2_orgcode_replaces_all :
    (∀ s : String, has01HD s.data = false → convert_orgcode s = s) ∧
    (∀ a b : String, has01HD a.data = false →
      convert_orgcode (⟨a.data ++ '0' :: '1' :: 'H' :: 'D' :: b.data⟩) =
        ⟨a.data ++ (convert_orgcode b).data⟩) ∧
    convert_orgcode "01HD1234" = "1234" ∧ convert_orgcode "ABCD" = "ABCD" := by
  refine ⟨?_, ?_, rfl, rfl⟩
  · intro s h
    show (⟨stripAll01HD s.data⟩ : String) = s
    rw [strip_of_no_occ s.data h]
  · intro a b h
    show (⟨stripAll01HD (a.data ++ '0' :: '1' :: 'H' :: 'D' :: b.data)⟩ :
      String) = ⟨a.data ++ stripAll01HD b.data⟩
    rw [strip_append_occ a.data b.data h]

/-- Claim C3, as stated, is false: `build_item` stamps the item with the
ingestion wall-clock time (`dt.datetime.now()`), so two invocations of
`build_item` on the same fully valid row at different clock readings
return different items. -/
theorem C3_build_item_counterexample :
    build_item "2024-05-01T10:00:00" validRow1 ≠
    build_item "2024-05-01T10:00:01" validRow1 := by
  intro h
  have h2 := congrArg (fun r => match r with
    | Except.ok (some it) => it.last_updated_datetime
    | _ => "") h
  simp only [] at h2
  exact absurd h2 (by decide)

/-- Claim C3 amended: `build_item` is deterministic in the row and the
ingestion instant together — on the same row, any two invocations agree
on the skip outcome, on any failure, and on every field of the built item
except possibly `last_updated_datetime`, which carries the wall-clock
reading. -/
theorem C3_build_item_det_mod_timestamp :
    ∀ (n1 n2 : String) (given : Row),
    stripRes (build_item n1 given) = stripRes (build_item n2 given) := by
  intro n1 n2 given
  unfold build_item
  cases keyLookup given "Username" with
  | error e => rfl
  | ok u =>
    by_cases hp : pyFullmatchPosInt u
    · simp only [hp, if_true]
      have h := buildItemInner_det n1 n2 given u
      cases h1 : buildItemInner n1 given u with
      | error e1 =>
        cases h2 : buildItemInner n2 given u with
        | error e2 =>
          rw [h1, h2] at h
          simp only [Except.map] at h
          cases h
          rfl
        | ok it2 => rw [h1, h2] at h; simp [Except.map] at h
      | ok it1 =>
        cases h2 : buildItemInner n2 given u with
        | error e2 => rw [h1, h2] at h; simp [Except.map] at h
        | ok it2 =>
          rw [h1, h2] at h
          simp only [Except.map, Except.ok.injEq] at h
          simp only [stripRes, h]
    · simp only [Bool.not_eq_true] at hp
      simp only [hp, Bool.false_eq_true, if_false]


/-- Claim C4: a row whose identity column value is not all decimal digits
is a pure skip — `build_item` returns no item and no error, the loop
neither counts the row nor dispatches a write for it (count and dispatch
state unchanged), and the only log line the step can add is the
non-failure progress line. -/
theorem C4_skip_row :
    ∀ (now : String) (oracle : Nat → WriteOutcome) (given : Row)
      (rest : List Row) (count disp : Nat) (bound : Bool)
      (logs : List LogMsg) (u : String),
    keyLookup given "Username" = .ok u →
    pyFullmatchPosInt u = false →
    count < 5000 →
    build_item now given = .ok none ∧
    load_loop oracle now (given :: rest) count disp bound logs =
      load_loop oracle now rest count disp true
        (if count % 100 = 0 then logs ++ [.debugLoaded count] else logs) ∧
    isFailureLog (.debugLoaded count) = false := by
  intro now oracle given rest count disp bound logs u hu hp hc
  have hb : build_item now given = .ok none := by
    unfold build_item
    rw [hu]
    simp [hp]
  refine ⟨hb, ?_, rfl⟩
  rw [load_loop, hb]
  have h5 : ¬(count = 5000) := by omega
  simp only [if_neg h5]

/-- Witness for C4 at the concrete skip row, starting with the loop-local
`item` still unassigned. -/
theorem C4_skip_row_witness :
    keyLookup skipRow "Username" = .ok "E-100" ∧
    pyFullmatchPosInt "E-100" = false ∧ (0 : Nat) < 5000 ∧
    (build_item "T0" skipRow = .ok none ∧
     load_loop allOk "T0" [skipRow] 0 0 false [] =
       load_loop allOk "T0" [] 0 0 true
         (if 0 % 100 = 0 then [] ++ [.debugLoaded 0] else []) ∧
     isFailureLog (.debugLoaded 0) = false) :=
  ⟨rfl, rfl, by decide,
   C4_skip_row "T0" allOk skipRow [] 0 0 false [] "E-100" rfl rfl (by decide)⟩

/-- Claim C5, as stated, is false at a concrete input: when the very
first row of the stream raises a per-row build failure (`ValueError`,
here an unparsable date), the loop-local `item` is still unassigned, so
the `except ValueError` handler's log call (src line 185, which formats
`item`) itself raises `UnboundLocalError`; no sibling handler catches it,
and the run aborts without processing the following valid row — the
failure is not contained. -/
theorem C5_build_failure_counterexample :
    build_item "T0" badDateRow = .error .valueError ∧
    load_from_csv [badDateRow, validRow1] allOk "T0" =
      .error .unboundLocalError :=
  ⟨rfl, rfl⟩

/-- Claim C5 amended: a per-row build failure (`ValueError`, e.g. an
unparsable date) does not abort the run provided some earlier row has
completed the loop's `item` assignment (built an item or skipped) — the
handler then logs the failure and the loop continues; while no row has,
the handler's reference to the unbound local `item` raises
`UnboundLocalError` and the run aborts. In particular the 3-row source
(skip row, valid row, bad-date row) still completes unaborted with a
confirmed count of exactly 1, because the skip row binds `item` first. -/
theorem C5_build_failure_contained :
    (∀ (now : String) (oracle : Nat → WriteOutcome) (given : Row)
       (rest : List Row) (count disp : Nat) (logs : List LogMsg),
      build_item now given = .error .valueError →
      load_loop oracle now (given :: rest) count disp true logs =
        load_loop oracle now rest count disp true
          (logs ++ [.invalidValue])) ∧
    (∀ (now : String) (oracle : Nat → WriteOutcome) (given : Row)
       (rest : List Row) (count disp : Nat) (logs : List LogMsg),
      build_item now given = .error .valueError →
      load_loop oracle now (given :: rest) count disp false logs =
        .error .unboundLocalError) ∧
    build_item "T0" badDateRow = .error .valueError ∧
    load_from_csv [skipRow, validRow1, badDateRow] allOk "T0" =
      .ok ⟨1, false, [.debugLoaded 0, .invalidValue]⟩ := by
  refine ⟨?_, ?_, rfl, rfl⟩
  · intro now oracle given rest count disp logs hb
    rw [load_loop, hb]
    rfl
  · intro now oracle given rest count disp logs hb
    rw [load_loop, hb]
    rfl

/-- Claim C10: a row lacking the `Username` key raises `KeyError` in
`build_item` before the skip check can be evaluated, and the loop's
catch-all handler turns that into an aborted run returning the count
confirmed so far (here 1 of 3 rows, the remaining row unprocessed). -/
theorem C10_missing_username_aborts :
    (∀ (now : String) (given : Row),
      keyLookup given "Username" = .error .keyError →
      build_item now given = .error .keyError) ∧
    (∀ (now : String) (oracle : Nat → WriteOutcome) (given : Row)
       (rest : List Row) (count disp : Nat) (bound : Bool)
       (logs : List LogMsg),
      build_item now given = .error .keyError →
      load_loop oracle now (given :: rest) count disp bound logs =
        .ok ⟨count, true, logs ++ [.unknownDuringLoad]⟩) ∧
    keyLookup noUserRow "Username" = .error .keyError ∧
    load_from_csv [validRow1, noUserRow, validRow2] allOk "T0" =
      .ok ⟨1, true, [.unknownDuringLoad]⟩ := by
  refine ⟨?_, ?_, rfl, rfl⟩
  · intro now given h
    unfold build_item
    rw [h]
  · intro now oracle given rest count disp bound logs hb
    rw [load_loop, hb]

/-- Claim C8: for every store error code outside `ERROR_HELP_STRINGS`,
classification raises (`KeyError`) rather than fabricating a remediation
string, and for every code in the taxonomy it reports that code's fixed
remediation string verbatim. -/
theorem C8_classifier :
    ∀ (code msg : String),
    ((∀ help, (code, help) ∉ ERROR_HELP_STRINGS) →
      log_boto_client_error code msg = .error .keyError) ∧
    (∀ help, (code, help) ∈ ERROR_HELP_STRINGS →
      log_boto_client_error code msg = .ok (.clientHelp code help msg)) := by
  intro code msg
  constructor
  · intro h
    unfold log_boto_client_error errorHelp?
    cases hf : ERROR_HELP_STRINGS.find? (fun p => p.1 == code) with
    | none => rfl
    | some p =>
      have hmem := List.mem_of_find?_eq_some hf
      have heq : p.1 = code := by
        have := List.find?_some hf
        simpa using this
      exact absurd (heq ▸ hmem) (h p.2)
  · intro help hmem
    fin_cases hmem <;> rfl

/-- Witness for C8 at the concrete unknown code "NoSuchCode". -/
theorem C8_classifier_witness :
    ((∀ help, ("NoSuchCode", help) ∉ ERROR_HELP_STRINGS) →
      log_boto_client_error "NoSuchCode" "m" = .error .keyError) ∧
    (∀ help, ("NoSuchCode", help) ∈ ERROR_HELP_STRINGS →
      log_boto_client_error "NoSuchCode" "m" =
        .ok (.clientHelp "NoSuchCode" help "m")) :=
  C8_classifier "NoSuchCode" "m"


lemma gatherFail_failAt2_one (msg : String) :
    gatherFail (oracleFailAt 2 "ThrottlingException" msg) 1 = none := by
  simp [gatherFail, oracleFailAt, List.range_succ, List.findSome?]

lemma gatherFail_failAt2_two (msg : String) :
    gatherFail (oracleFailAt 2 "ThrottlingException" msg) 2 =
      some ("ThrottlingException", msg) := by
  simp [gatherFail, oracleFailAt, List.range_succ, List.findSome?]

/-- Claim C1 amended: with the second dispatched write failing as a
`ThrottlingException` and both first rows building items, the run aborts
immediately (later rows unread) reporting the throttling remediation text
verbatim — but the count it returns is 2, not 1, because `item_count` is
incremented before the dispatched writes are awaited, so the failed
second item is already counted. -/
theorem C1_throttle_abort_count :
    ∀ (now msg : String) (r1 r2 : Row) (rest : List Row),
    isItemRow now r1 = true →
    isItemRow now r2 = true →
    load_from_csv (r1 :: r2 :: rest)
      (oracleFailAt 2 "ThrottlingException" msg) now =
    .ok ⟨2, true,
      [.clientHelp "ThrottlingException"
        "Request denied due to throttling, generally safe to retry with exponential back-off"
        msg]⟩ := by
  intro now msg r1 r2 rest h1 h2
  simp only [isItemRow] at h1 h2
  split at h1
  case _ it1 heq1 =>
    split at h2
    case _ it2 heq2 =>
      unfold load_from_csv
      rw [load_loop, heq1]
      rw [show (0 : Nat) + 1 = 1 from rfl, gatherFail_failAt2_one msg]
      norm_num
      rw [load_loop, heq2]
      rw [show (1 : Nat) + 1 = 2 from rfl, gatherFail_failAt2_two msg]
      rfl
    case _ => exact absurd h2 (by simp)
  case _ => exact absurd h1 (by simp)


/-- Claim C1, as stated, is false at a concrete 2-row source: the write of
the second item fails with throttling, the code aborts and reports the
throttling remediation, but `load_from_csv` returns a count of 2 (the
failed write's item was counted on dispatch), not the claimed 1. -/
theorem C1_throttle_counterexample :
    load_from_csv [validRow1, validRow2]
      (oracleFailAt 2 "ThrottlingException" "boom") "T0" =
    .ok ⟨2, true,
      [.clientHelp "ThrottlingException"
        "Request denied due to throttling, generally safe to retry with exponential back-off"
        "boom"]⟩ ∧ (2 : Nat) ≠ 1 :=
  ⟨rfl, by decide⟩

/-- Witness for C1 at two concrete valid rows. -/
theorem C1_throttle_abort_count_witness :
    isItemRow "T0" validRow1 = true ∧ isItemRow "T0" validRow2 = true ∧
    load_from_csv [validRow1, validRow2]
      (oracleFailAt 2 "ThrottlingException" "Rate exceeded") "T0" =
    .ok ⟨2, true,
      [.clientHelp "ThrottlingException"
        "Request denied due to throttling, generally safe to retry with exponential back-off"
        "Rate exceeded"]⟩ :=
  ⟨rfl, rfl,
   C1_throttle_abort_count "T0" "Rate exceeded" validRow1 validRow2 [] rfl rfl⟩



lemma digitChar_mod_isDigit (n : Nat) :
    (Nat.digitChar (n % 10)).isDigit = true := by
  have h : n % 10 < 10 := Nat.mod_lt _ (by norm_num)
  set k := n % 10 with hk
  interval_cases k <;> decide

lemma digitChar_mod_ne_slash (n : Nat) : Nat.digitChar (n % 10) ≠ '/' := by
  have h : n % 10 < 10 := Nat.mod_lt _ (by norm_num)
  set k := n % 10 with hk
  interval_cases k <;> decide

lemma digitChar_mod_toNat (n : Nat) :
    (Nat.digitChar (n % 10)).toNat - 48 = n % 10 := by
  have h : n % 10 < 10 := Nat.mod_lt _ (by norm_num)
  set k := n % 10 with hk
  interval_cases k <;> decide

lemma splitSlash_strict (x1 x2 y1 y2 z1 z2 : Char)
    (hx1 : x1 ≠ '/') (hx2 : x2 ≠ '/') (hy1 : y1 ≠ '/') (hy2 : y2 ≠ '/')
    (hz1 : z1 ≠ '/') (hz2 : z2 ≠ '/') :
    splitSlash [x1, x2, '/', y1, y2, '/', z1, z2] =
      [[x1, x2], [y1, y2], [z1, z2]] := by
  simp [splitSlash, hx1, hx2, hy1, hy2, hz1, hz2]

lemma monthField_pad2 (m : Nat) (h1 : 1 ≤ m) (h2 : m ≤ 12) :
    monthField (pad2 m) = some m := by
  interval_cases m <;> decide

lemma dayField_pad2 (d : Nat) (h1 : 1 ≤ d) (h2 : d ≤ 31) :
    dayField (pad2 d) = some d := by
  interval_cases d <;> decide

lemma yearField_pad2 (y : Nat) (h : y ≤ 99) :
    yearField (pad2 y) = some y := by
  interval_cases y <;> decide

lemma daysInMonth_le (y m : Nat) : daysInMonth y m ≤ 31 := by
  unfold daysInMonth
  split
  · split <;> omega
  · split <;> omega

lemma pyCentury_le (y : Nat) (h : y ≤ 99) : pyCentury y ≤ 2068 := by
  unfold pyCentury
  split <;> omega

lemma pyStrptime_strict (m d y : Nat) (hm1 : 1 ≤ m) (hm2 : m ≤ 12)
    (hd1 : 1 ≤ d) (hd2 : d ≤ daysInMonth (pyCentury y) m) (hy : y ≤ 99) :
    pyStrptimeDate (strictRender m d y) = some (pyCentury y, m, d) := by
  have hd31 : d ≤ 31 := le_trans hd2 (daysInMonth_le _ _)
  unfold pyStrptimeDate strictRender
  have hdata : (⟨pad2 m ++ '/' :: pad2 d ++ '/' :: pad2 y⟩ : String).data =
      pad2 m ++ '/' :: pad2 d ++ '/' :: pad2 y := rfl
  rw [hdata]
  have hlist : pad2 m ++ '/' :: pad2 d ++ '/' :: pad2 y =
      [Nat.digitChar (m / 10 % 10), Nat.digitChar (m % 10), '/',
       Nat.digitChar (d / 10 % 10), Nat.digitChar (d % 10), '/',
       Nat.digitChar (y / 10 % 10), Nat.digitChar (y % 10)] := by
    simp [pad2]
  rw [hlist, splitSlash_strict _ _ _ _ _ _
    (digitChar_mod_ne_slash _) (digitChar_mod_ne_slash _)
    (digitChar_mod_ne_slash _) (digitChar_mod_ne_slash _)
    (digitChar_mod_ne_slash _) (digitChar_mod_ne_slash _)]
  show (match monthField (pad2 m), dayField (pad2 d), yearField (pad2 y) with
    | some m, some d, some y =>
      if d ≤ daysInMonth (pyCentury y) m then some (pyCentury y, m, d)
      else none
    | _, _, _ => none) = some (pyCentury y, m, d)
  rw [monthField_pad2 m hm1 hm2, dayField_pad2 d hd1 hd31,
    yearField_pad2 y hy]
  simp only [if_pos hd2]

lemma parseIso_isoformat (Y m d : Nat) (hY : Y ≤ 9999) (hm : m ≤ 99)
    (hd : d ≤ 99) : parseIso (isoformatDate Y m d) = some (Y, m, d) := by
  unfold parseIso isoformatDate
  simp only [pad4, pad2, List.cons_append, List.nil_append]
  rw [if_pos]
  · simp only [digitChar_mod_toNat, Option.some.injEq, Prod.mk.injEq]
    refine ⟨by omega, by omega, by omega⟩
  · exact ⟨digitChar_mod_isDigit _, digitChar_mod_isDigit _,
      digitChar_mod_isDigit _, digitChar_mod_isDigit _,
      digitChar_mod_isDigit _, digitChar_mod_isDigit _,
      digitChar_mod_isDigit _, digitChar_mod_isDigit _,
      by decide, by decide, by decide, by decide, by decide, by decide⟩



lemma parseIso_isoformat_isSome (Y m d : Nat) :
    (parseIso (isoformatDate Y m d)).isSome = true := by
  unfold parseIso isoformatDate
  simp only [pad4, pad2, List.cons_append, List.nil_append]
  rw [if_pos ⟨digitChar_mod_isDigit _, digitChar_mod_isDigit _,
    digitChar_mod_isDigit _, digitChar_mod_isDigit _,
    digitChar_mod_isDigit _, digitChar_mod_isDigit _,
    digitChar_mod_isDigit _, digitChar_mod_isDigit _,
    by decide, by decide, by decide, by decide, by decide, by decide⟩]
  rfl

/-- Claim C6 amended: `convert_date` maps empty input to the empty
string; for every strictly matching `MM/DD/YY` input (two-digit
zero-padded fields rendered by `strictRender`, with a valid calendar day)
it returns the ISO-8601 timestamp of the same calendar date, which parses
back to that year (under the 1969..2068 century mapping of `%y`), month
and day; and every non-empty input rejected by the strptime format raises
`ValueError`. The strptime format, however, also accepts one-digit month
and day fields, so "not strictly matching MM/DD/YY" does not imply
failure (see the counterexample). -/
theorem C6_convert_date_amended :
    convert_date "" = .ok "" ∧
    (∀ m d y : Nat, 1 ≤ m → m ≤ 12 → 1 ≤ d →
      d ≤ daysInMonth (pyCentury y) m → y ≤ 99 →
      convert_date (strictRender m d y) =
        .ok (isoformatDate (pyCentury y) m d) ∧
      parseIso (isoformatDate (pyCentury y) m d) =
        some (pyCentury y, m, d) ∧
      pyCentury y % 100 = y) ∧
    (∀ s : String, s ≠ "" → pyStrptimeDate s = none →
      convert_date s = .error .valueError) := by
  refine ⟨rfl, ?_, ?_⟩
  · intro m d y hm1 hm2 hd1 hd2 hy
    have hne : strictRender m d y ≠ "" := by
      intro h
      have h2 := congrArg (fun s => s.data.length) h
      simp [strictRender, pad2] at h2
    refine ⟨?_, ?_, ?_⟩
    · unfold convert_date
      rw [if_neg hne, pyStrptime_strict m d y hm1 hm2 hd1 hd2 hy]
    · exact parseIso_isoformat _ _ _
        (by have := pyCentury_le y hy; omega) (by omega)
        (by have := le_trans hd2 (daysInMonth_le _ _); omega)
    · unfold pyCentury
      split <;> omega
  · intro s hne hstrp
    unfold convert_date
    rw [if_neg hne, hstrp]

/-- Claim C6, as stated, is false at the concrete input "1/2/21": it is
non-empty and strictly matches `MM/DD/YY` for no m, d, y (every strict
render has two-digit fields, 8 characters), yet `convert_date` does not
raise — strptime's `%m` and `%d` also accept one-digit fields, so it
returns the timestamp "2021-01-02T00:00:00". -/
theorem C6_convert_date_counterexample :
    convert_date "1/2/21" = .ok "2021-01-02T00:00:00" ∧
    "1/2/21" ≠ "" ∧
    (∀ m d y : Nat, strictRender m d y ≠ "1/2/21") := by
  refine ⟨rfl, by decide, ?_⟩
  intro m d y h
  have h2 : (strictRender m d y).data.length =
      ("1/2/21" : String).data.length := by rw [h]
  rw [show ("1/2/21" : String).data.length = 6 from rfl] at h2
  simp [strictRender, pad2] at h2

lemma pyIntE_ok {s : String} {n : Int} (h : pyIntE s = .ok n) :
    pyInt? s = some n := by
  unfold pyIntE at h
  cases hp : pyInt? s with
  | none => rw [hp] at h; cases h
  | some a => rw [hp] at h; cases h; rfl

lemma convert_date_shape {s t : String} (h : convert_date s = .ok t) :
    t = "" ∨ (parseIso t).isSome = true := by
  unfold convert_date at h
  split at h
  · cases h; exact Or.inl rfl
  · split at h
    case _ y m d heq => cases h; exact Or.inr (parseIso_isoformat_isSome _ _ _)
    case _ => cases h

lemma convert_nullable_ne (v : String) : convert_nullable v ≠ "" := by
  unfold convert_nullable
  split
  · assumption
  · decide

lemma convert_nullable_cases (v : String) :
    (v = "" ∧ convert_nullable v = "null") ∨
    (v ≠ "" ∧ convert_nullable v = v) := by
  unfold convert_nullable
  split
  case _ h => exact Or.inr ⟨h, rfl⟩
  case _ h => exact Or.inl ⟨not_not.mp h, rfl⟩

/-- Claim C7: every item `build_item` hands to the writer has
`lms_user_id` parsed from the all-digits identity column and
`activity_id` parsed from the activity column (both integers by
construction); each of the five date fields is the empty string or a
well-formed `YYYY-MM-DDTHH:MM:SS` timestamp, never absent; and
`empl_id`/`manager_empl_id` are never empty — each is the row's original
non-empty value or the literal sentinel "null", with
`convert_nullable "" = "null"` and `convert_nullable "X" = "X"`. -/
theorem C7_writer_invariants :
    ∀ (now : String) (given : Row),
    isItemRow now given = true →
    (∃ item, build_item now given = .ok (some item) ∧
      (∃ u, keyLookup given "Username" = .ok u ∧
        pyFullmatchPosInt u = true ∧ pyInt? u = some item.lms_user_id) ∧
      (∃ a, keyLookup given "ActivityIDSource" = .ok a ∧
        pyInt? a = some item.activity_id) ∧
      (item.assigned_date = "" ∨ (parseIso item.assigned_date).isSome = true) ∧
      (item.due_date = "" ∨ (parseIso item.due_date).isSome = true) ∧
      (item.expiration_date = "" ∨
        (parseIso item.expiration_date).isSome = true) ∧
      (item.last_attempt_date = "" ∨
        (parseIso item.last_attempt_date).isSome = true) ∧
      (item.last_completion_date = "" ∨
        (parseIso item.last_completion_date).isSome = true) ∧
      item.empl_id ≠ "" ∧ item.manager_empl_id ≠ "" ∧
      (∃ e, keyLookup given "LocalEmployeeID" = .ok e ∧
        ((e = "" ∧ item.empl_id = "null") ∨ (e ≠ "" ∧ item.empl_id = e))) ∧
      (∃ mg, keyLookup given "ManagerLocalEmployeeID" = .ok mg ∧
        ((mg = "" ∧ item.manager_empl_id = "null") ∨
         (mg ≠ "" ∧ item.manager_empl_id = mg)))) ∧
    convert_nullable "" = "null" ∧ convert_nullable "X" = "X" := by
  intro now given h
  refine ⟨?_, rfl, rfl⟩
  simp only [isItemRow] at h
  split at h
  case _ it heq =>
    refine ⟨it, heq, ?_⟩
    unfold build_item at heq
    cases hu : keyLookup given "Username" with
    | error e => simp only [hu] at heq; simp at heq
    | ok u =>
      simp only [hu] at heq
      by_cases hp : pyFullmatchPosInt u = true
      · rw [if_pos hp] at heq
        cases hbi : buildItemInner now given u with
        | error e => simp only [hbi] at heq; simp at heq
        | ok it2 =>
          simp only [hbi] at heq
          injection heq with heq2
          injection heq2 with heq3
          unfold buildItemInner at hbi
          simp only [bind_eq_ok, pure, Except.pure, Except.ok.injEq] at hbi
          obtain ⟨i1, hi1, a2, ha2, i2, hi2, c4, h4, e5, h5, f6, h6, g7, h7,
            l8, h8, o9, h9, m10, h10, a11, h11, a12, h12, s13, h13, s14, h14,
            p15, h15, d16, h16, p17, h17, d18, h18, p19, h19, d20, h20,
            p21, h21, d22, h22, p23, h23, d24, h24, hrec⟩ := hbi
          subst heq3
          subst hrec
          exact ⟨⟨u, rfl, hp, pyIntE_ok hi1⟩, ⟨a2, ha2, pyIntE_ok hi2⟩,
            convert_date_shape h16, convert_date_shape h18,
            convert_date_shape h20, convert_date_shape h22,
            convert_date_shape h24, convert_nullable_ne e5,
            convert_nullable_ne m10, ⟨e5, h5, convert_nullable_cases e5⟩,
            ⟨m10, h10, convert_nullable_cases m10⟩⟩
      · rw [if_neg hp] at heq
        simp at heq
  case _ => exact absurd h (by simp)



lemma gatherFail_allOk (k : Nat) : gatherFail allOk k = none := by
  unfold gatherFail
  induction List.range k with
  | nil => rfl
  | cons a t ih => simp [List.findSome?, allOk, ih]

lemma validCount_cons_item {now : String} {r : Row} {rest : List Row}
    {it : Item} (hb : build_item now r = .ok (some it)) :
    validCount now (r :: rest) = 1 + validCount now rest := by
  simp [validCount, List.countP_cons, isItemRow, hb]
  omega

lemma validCount_cons_skip {now : String} {r : Row} {rest : List Row}
    (hb : build_item now r = .ok none) :
    validCount now (r :: rest) = validCount now rest := by
  simp [validCount, List.countP_cons, isItemRow, hb]

lemma validCount_cons_err {now : String} {r : Row} {rest : List Row}
    {e : PyErr} (hb : build_item now r = .error e) :
    validCount now (r :: rest) = validCount now rest := by
  simp [validCount, List.countP_cons, isItemRow, hb]

lemma load_loop_allOk (now : String) :
    ∀ (rows : List Row) (count disp : Nat) (bound : Bool)
      (logs : List LogMsg),
    noUnboundFailure now bound rows = true → count < 5000 →
    ∃ res, load_loop allOk now rows count disp bound logs = .ok res ∧
      res.item_count = min (count + validCount now rows) 5000 ∧
      res.aborted = false := by
  intro rows
  induction rows with
  | nil =>
    intro count disp bound logs hall hc
    refine ⟨⟨count, false, logs⟩, rfl, ?_, rfl⟩
    simp only [validCount, List.countP_nil]
    omega
  | cons r rest ih =>
    intro count disp bound logs hall hc
    rw [noUnboundFailure] at hall
    rw [load_loop]
    cases hb : build_item now r with
    | ok oi =>
      rw [hb] at hall
      cases oi with
      | some it =>
        simp only [gatherFail_allOk]
        by_cases h5 : count + 1 = 5000
        · rw [if_pos h5]
          refine ⟨_, rfl, ?_, rfl⟩
          rw [validCount_cons_item hb]
          show count + 1 = min (count + (1 + validCount now rest)) 5000
          omega
        · rw [if_neg h5]
          obtain ⟨res, hres, hcount, habort⟩ :=
            ih (count + 1) (disp + 1) true
              (if (count + 1) % 100 = 0 then logs ++ [.debugLoaded (count + 1)]
               else logs) hall (by omega)
          refine ⟨res, hres, ?_, habort⟩
          rw [validCount_cons_item hb]
          omega
      | none =>
        have h5 : ¬(count = 5000) := by omega
        rw [if_neg h5]
        obtain ⟨res, hres, hcount, habort⟩ :=
          ih count disp true
            (if count % 100 = 0 then logs ++ [.debugLoaded count] else logs)
            hall hc
        refine ⟨res, hres, ?_, habort⟩
        rw [validCount_cons_skip hb]
        exact hcount
    | error e =>
      rw [hb] at hall
      cases e with
      | valueError =>
        rw [Bool.and_eq_true] at hall
        obtain ⟨hbound, hrest⟩ := hall
        subst hbound
        rw [if_pos rfl]
        obtain ⟨res, hres, hcount, habort⟩ :=
          ih count disp true (logs ++ [.invalidValue]) hrest hc
        refine ⟨res, hres, ?_, habort⟩
        rw [validCount_cons_err hb]
        exact hcount
      | keyError => simp at hall
      | unboundLocalError => simp at hall

/-- Claim C9 amended: on a run with no store failures in which every row
stays inside the loop's per-row containment — each row builds an item or
skips, or raises a `ValueError` only after some earlier row has bound the
loop-local `item` (so the handler can log it), and no row hits the
catch-all abort — the run completes unaborted exactly by exhausting the
stream or by the hard-coded 5000-item ceiling, reporting
`min(number of item rows, 5000)`; in particular a source with more than
5000 item rows stops at exactly 5000. Outside that containment the run
aborts even without store or transport failures: via the catch-all
handler on a missing column (see the counterexample), or via the
`ValueError` handler's own `UnboundLocalError` when the first rows all
fail to build. -/
theorem C9_completion_amended :
    ∀ (now : String) (rows : List Row),
    noUnboundFailure now false rows = true →
    ∃ res, load_from_csv rows allOk now = .ok res ∧
      res.item_count = min (validCount now rows) 5000 ∧
      res.aborted = false ∧
      (5000 < validCount now rows → res.item_count = 5000) ∧
      (validCount now rows ≤ 5000 → res.item_count = validCount now rows) := by
  intro now rows hall
  obtain ⟨res, h1, h2, h3⟩ :=
    load_loop_allOk now rows 0 0 false [] hall (by norm_num)
  rw [Nat.zero_add] at h2
  exact ⟨res, h1, h2, h3, by omega, by omega⟩

/-- Witness for C9 at a concrete 3-row contained source. -/
theorem C9_completion_amended_witness :
    (noUnboundFailure "T0" false [skipRow, validRow1, badDateRow] = true) ∧
    ∃ res, load_from_csv [skipRow, validRow1, badDateRow] allOk "T0" =
        .ok res ∧
      res.item_count = min (validCount "T0" [skipRow, validRow1, badDateRow]) 5000 ∧
      res.aborted = false ∧
      (5000 < validCount "T0" [skipRow, validRow1, badDateRow] →
        res.item_count = 5000) ∧
      (validCount "T0" [skipRow, validRow1, badDateRow] ≤ 5000 →
        res.item_count = validCount "T0" [skipRow, validRow1, badDateRow]) :=
  ⟨rfl, C9_completion_amended "T0" [skipRow, validRow1, badDateRow] rfl⟩

/-- Claim C9, as stated, is false at a concrete 2-row source with an
all-success store: the first row lacks the identity column, the catch-all
handler aborts the run (aborted, not Completed) with count 0, though
there was no store or transport failure, the stream was not exhausted
(the second, valid row is never processed) and the 5000 ceiling was not
reached. -/
theorem C9_completion_counterexample :
    load_from_csv [noUserRow, validRow1] allOk "T0" =
      .ok ⟨0, true, [.unknownDuringLoad]⟩ ∧
    (0 : Nat) ≠ 5000 ∧ (true : Bool) ≠ false :=
  ⟨rfl, by decide, by decide⟩


/-- Witness for C7 at the concrete fully valid row. -/
theorem C7_writer_invariants_witness :
    isItemRow "T0" validRow1 = true ∧
    ((∃ item, build_item "T0" validRow1 = .ok (some item) ∧
      (∃ u, keyLookup validRow1 "Username" = .ok u ∧
        pyFullmatchPosInt u = true ∧ pyInt? u = some item.lms_user_id) ∧
      (∃ a, keyLookup validRow1 "ActivityIDSource" = .ok a ∧
        pyInt? a = some item.activity_id) ∧
      (item.assigned_date = "" ∨ (parseIso item.assigned_date).isSome = true) ∧
      (item.due_date = "" ∨ (parseIso item.due_date).isSome = true) ∧
      (item.expiration_date = "" ∨
        (parseIso item.expiration_date).isSome = true) ∧
      (item.last_attempt_date = "" ∨
        (parseIso item.last_attempt_date).isSome = true) ∧
      (item.last_completion_date = "" ∨
        (parseIso item.last_completion_date).isSome = true) ∧
      item.empl_id ≠ "" ∧ item.manager_empl_id ≠ "" ∧
      (∃ e, keyLookup validRow1 "LocalEmployeeID" = .ok e ∧
        ((e = "" ∧ item.empl_id = "null") ∨ (e ≠ "" ∧ item.empl_id = e))) ∧
      (∃ mg, keyLookup validRow1 "ManagerLocalEmployeeID" = .ok mg ∧
        ((mg = "" ∧ item.manager_empl_id = "null") ∨
         (mg ≠ "" ∧ item.manager_empl_id = mg)))) ∧
    convert_nullable "" = "null" ∧ convert_nullable "X" = "X") :=
  ⟨rfl, C7_writer_invariants "T0" validRow1 rfl⟩

end LmsLoad
